import Mathlib

/-!
# Verification of the TabGuard browser extension (basic-version)

A shallow embedding of the TypeScript sources of the TabGuard extension:

* `content.ts` — content-script page analysis, form tracking and the
  `beforeunload` warning handler;
* `services/storage.ts` — settings and per-tab records in the browser
  key-value store;
* `services/summarizer.ts` — the summarizer service wrapper;
* `background.ts` — the background coordinator (protection-status
  messages, summarization gating, summary generation);
* the popup script — protect/unprotect writes of the protected-site list.

JavaScript strings are modelled by `String` (and, for storage keys where
structural reasoning is needed, by `List Char`); JavaScript numbers that
can be `NaN` are modelled by `Option Int` with `none` standing for `NaN`;
thrown exceptions are modelled by `Except String`.
-/

/-- JS `String.prototype.trim`: drop whitespace from both ends. -/
def jsTrim (s : String) : String :=
  ((((s.toList.dropWhile Char.isWhitespace).reverse).dropWhile Char.isWhitespace).reverse).asString

/-- Substring containment on char lists, the model of JS
`String.prototype.includes`. -/
def listContainsSub (pat : List Char) : List Char → Bool
  | [] => pat.isEmpty
  | c :: rest => pat.isPrefixOf (c :: rest) || listContainsSub pat rest

/-- JS `s.includes(pat)`. -/
def jsIncludes (s pat : String) : Bool :=
  listContainsSub pat.toList s.toList

/-- JS `a || d` for a nullable attribute value `a`: `getAttribute` returns
`null` (here `none`) or a string, and the empty string is falsy. -/
def jsAttrOr (a : Option String) (d : String) : String :=
  match a with
  | none => d
  | some s => if s = "" then d else s

/-! ## Content script (`content.ts`): DOM model and page analysis -/

/-- One DOM element, carrying the attributes the content script inspects.
`tag` is the lower-case tag name; `role` is the `role` attribute;
`ariaRequired` the `aria-required` attribute; `required` whether the
`required` attribute is present; `contentEditableAttr` whether a
`contenteditable` attribute is present; `typeProp` the value of the
`type` DOM property. -/
structure DomElem where
  tag : String
  role : Option String
  classes : List String
  contentEditableAttr : Bool
  required : Bool
  ariaRequired : Option String
  typeProp : String
  nameAttr : Option String
  idAttr : Option String
deriving DecidableEq

/-- A page: its elements (in document order) and the length of
`document.body.textContent`. -/
structure Page where
  elems : List DomElem
  bodyTextLen : Nat
deriving DecidableEq

/-- Matches the `form` selector. -/
def isFormElem (e : DomElem) : Bool := e.tag == "form"

/-- Matches the `input, textarea, select` selector. -/
def isInputElem (e : DomElem) : Bool :=
  e.tag == "input" || e.tag == "textarea" || e.tag == "select"

/-- Matches the `article, [role="main"], main` selector
(`content.ts` line 113). -/
def matchesArticleOrMain (e : DomElem) : Bool :=
  e.tag == "article" || e.role == some "main" || e.tag == "main"

/-- Matches the `article, .post, .entry` selector (`content.ts` line 147). -/
def matchesArticlePostEntry (e : DomElem) : Bool :=
  e.tag == "article" || e.classes.contains "post" || e.classes.contains "entry"

/-- Matches the `.document, .editor, [contenteditable]` selector
(`content.ts` line 153). -/
def matchesDocEditor (e : DomElem) : Bool :=
  e.classes.contains "document" || e.classes.contains "editor" || e.contentEditableAttr

/-- `input.hasAttribute('required') || input.getAttribute('aria-required') === 'true'`. -/
def isRequiredInput (e : DomElem) : Bool :=
  e.required || e.ariaRequired == some "true"

/-- `input.tagName === 'TEXTAREA' || type ∈ {text, email, url}` (via the
`type` DOM property). -/
def isTextField (e : DomElem) : Bool :=
  e.tag == "textarea" || e.typeProp == "text" || e.typeProp == "email" || e.typeProp == "url"

/-- `input.getAttribute('name') || input.getAttribute('id') || 'unnamed'`. -/
def elemFieldName (e : DomElem) : String :=
  jsAttrOr e.nameAttr (jsAttrOr e.idAttr "unnamed")

inductive ContentType where
  | form
  | article
  | document
  | general
deriving DecidableEq

inductive Level where
  | low
  | medium
  | high
deriving DecidableEq

/-- The `ContentAnalysis` record of `content.ts`. -/
structure ContentAnalysis where
  contentType : ContentType
  complexity : Level
  estimatedTime : Nat
  keyFields : List String
  riskLevel : Level
deriving DecidableEq

/-- `performContentAnalysis` of `content.ts` (lines 110-167).

In the article branch, JS operator precedence makes
`Math.ceil(document.body.textContent?.length || 0 / 1000)` evaluate to
`Math.ceil(len || 0)`, i.e. the body text length itself; the embedding
reproduces that. `Math.ceil((r*2 + t*3) / 2)` on naturals is
`(r*2 + t*3 + 1) / 2`. -/
def performContentAnalysis (p : Page) : ContentAnalysis :=
  let forms := p.elems.filter isFormElem
  let inputs := p.elems.filter isInputElem
  let articles := p.elems.filter matchesArticleOrMain
  if forms.length > 0 then
    let requiredFields := inputs.filter isRequiredInput
    let textFields := inputs.filter isTextField
    { contentType := ContentType.form
      complexity :=
        if forms.length > 2 then Level.high
        else if forms.length > 1 then Level.medium
        else Level.low
      estimatedTime := max 1 ((requiredFields.length * 2 + textFields.length * 3 + 1) / 2)
      keyFields :=
        ((inputs.filter (fun e => e.required || e.tag == "textarea")).map elemFieldName).take 5
      riskLevel :=
        if requiredFields.length > 5 then Level.high
        else if requiredFields.length > 2 then Level.medium
        else Level.low }
  else if articles.length > 0 || p.elems.any matchesArticlePostEntry then
    { contentType := ContentType.article
      complexity := Level.medium
      estimatedTime := p.bodyTextLen
      keyFields := []
      riskLevel := Level.low }
  else if p.elems.any matchesDocEditor then
    { contentType := ContentType.document
      complexity := Level.high
      estimatedTime := 10
      keyFields := []
      riskLevel := Level.medium }
  else
    { contentType := ContentType.general
      complexity := Level.low
      estimatedTime := 0
      keyFields := []
      riskLevel := Level.low }

/-- Spec-side reading of the classification precedence: an article-like
element is one matching `article, [role="main"], main, .post, .entry`. -/
def isArticleLikeElem (e : DomElem) : Bool :=
  e.tag == "article" || e.role == some "main" || e.tag == "main" ||
    e.classes.contains "post" || e.classes.contains "entry"

/-- Spec-side content-type classification, following the words of the
claim: `form` before `article` before `document` before `general`. -/
def claimContentType (p : Page) : ContentType :=
  if p.elems.any isFormElem then ContentType.form
  else if p.elems.any isArticleLikeElem then ContentType.article
  else if p.elems.any matchesDocEditor then ContentType.document
  else ContentType.general

/-! ## Content script: form tracking -/

/-- The `FormField` record of `content.ts`. -/
structure FormField where
  name : String
  fieldType : String
  value : String
  required : Bool
  isModified : Bool
deriving DecidableEq

/-- The `FormDataInfo` record of `content.ts`. `completionPercentage` is a
JS number that can be `NaN`; `none` models `NaN`. -/
structure FormDataInfo where
  formId : String
  fields : List FormField
  completionPercentage : Option Int
  lastModified : Nat
  hasUnsavedChanges : Bool
deriving DecidableEq

/-- `handleFieldChange` of `content.ts` (lines 216-239), acting on the
field at index `i` of the tracked form (in the source, `fieldData` is an
alias of an element of `formData.fields`).  If the value did not change
nothing happens.  Otherwise the field is updated and
`completionPercentage` becomes
`Math.round((completedFields.length / requiredFields.length) * 100)`;
when there are no required fields the JS division is `0/0 = NaN`
(modelled by `none`), and `Math.round x = ⌊x + 1/2⌋` otherwise. -/
def handleFieldChange (form : FormDataInfo) (i : Nat) (newValue : String) (now : Nat) :
    FormDataInfo :=
  match form.fields.get? i with
  | none => form
  | some fd =>
    if fd.value == newValue then form
    else
      let fields' := form.fields.set i
        { fd with value := newValue, isModified := true }
      let requiredFields := fields'.filter (fun f => f.required)
      let completedFields := requiredFields.filter (fun f => jsTrim f.value != "")
      let pct : Option Int :=
        if requiredFields.length = 0 then none
        else some (round (((completedFields.length : ℚ) / (requiredFields.length : ℚ)) * 100))
      { form with
        fields := fields'
        completionPercentage := pct
        lastModified := now
        hasUnsavedChanges := true }

/-- `handleFormSubmit` of `content.ts` (lines 291-301). -/
def handleFormSubmit (form : FormDataInfo) : FormDataInfo :=
  { form with hasUnsavedChanges := false, completionPercentage := some 100 }

/-! ## Content script: protection status and the beforeunload handler -/

/-- The response of the background script to `GET_PROTECTION_STATUS`. -/
structure ProtectionResponse where
  isProtected : Bool
deriving DecidableEq

/-- The module-level state of the content script. -/
structure ContentState where
  hasUnsavedChanges : Bool
  isSiteProtected : Bool
  currentFormData : Option FormDataInfo
  contentAnalysis : Option ContentAnalysis
deriving DecidableEq

/-- `checkProtectionStatus` of `content.ts` (lines 73-86): sets
`isSiteProtected` to `true` when the (possibly absent) response has
`isProtected` set; it never clears the flag. -/
def checkProtectionStatus (st : ContentState) (response : Option ProtectionResponse) :
    ContentState :=
  match response with
  | some r => if r.isProtected then { st with isSiteProtected := true } else st
  | none => st

/-- `currentFormData?.hasUnsavedChanges`, coerced to a boolean by the JS
condition. -/
def formHasUnsaved (st : ContentState) : Bool :=
  match st.currentFormData with
  | some f => f.hasUnsavedChanges
  | none => false

/-- `completionPercentage > 0` in JS: false for `NaN` (`none`). -/
def pctPositive (p : Option Int) : Bool :=
  match p with
  | some k => k > 0
  | none => false

/-- Rendering of a possibly-`NaN` JS number inside a template string. -/
def pctString (p : Option Int) : String :=
  match p with
  | some k => toString k
  | none => "NaN"

/-- Rendering of a `ContentType` inside a template string. -/
def contentTypeString (c : ContentType) : String :=
  match c with
  | ContentType.form => "form"
  | ContentType.article => "article"
  | ContentType.document => "document"
  | ContentType.general => "general"

/-- The `beforeunload` listener installed by `setupEnhancedWarning`
(`content.ts` lines 329-349).  `some msg` models
`event.preventDefault(); event.returnValue = msg; return msg`, and `none`
models the handler returning without any warning. -/
def beforeunloadHandler (st : ContentState) : Option String :=
  if st.isSiteProtected && (st.hasUnsavedChanges || formHasUnsaved st) then
    let base := "You have unsaved changes. Are you sure you want to leave?"
    let msg :=
      match st.currentFormData with
      | some f =>
        if pctPositive f.completionPercentage then
          "You're " ++ pctString f.completionPercentage ++
            "% through completing this form. Are you sure you want to leave?"
        else
          match st.contentAnalysis with
          | some ca =>
            "You have unsaved work on this " ++ contentTypeString ca.contentType ++
              ". Estimated time to complete: " ++ toString ca.estimatedTime ++
              " minutes. Are you sure you want to leave?"
          | none => base
      | none => base
    some msg
  else
    none

/-! ## Storage service (`services/storage.ts`): settings -/

/-- The `summaryTypes` sub-record of `ExtensionSettings`. -/
structure SummaryTypes where
  forms : String
  articles : String
  documents : String
  general : String
deriving DecidableEq

/-- The `ExtensionSettings` record of `services/storage.ts`. -/
structure ExtensionSettings where
  protectedSites : List String
  aiFeaturesEnabled : Bool
  autoSummarize : Bool
  summaryTypes : SummaryTypes
  maxSummariesPerTab : Nat
  summaryRetentionDays : Nat
deriving DecidableEq

/-- `StorageService.getDefaultSettings` (`services/storage.ts`
lines 163-177). -/
def getDefaultSettings : ExtensionSettings :=
  { protectedSites := []
    aiFeaturesEnabled := true
    autoSummarize := true
    summaryTypes :=
      { forms := "key-points"
        articles := "teaser"
        documents := "tldr"
        general := "key-points" }
    maxSummariesPerTab := 5
    summaryRetentionDays := 7 }

/-- The relevant keys of `chrome.storage.sync`: the `settings` record
written by `StorageService`, and the top-level `protectedSites` list
written by the popup and read by the background script.  `none` models an
absent key. -/
structure SyncStorage where
  settings : Option ExtensionSettings
  protectedSites : Option (List String)
deriving DecidableEq

/-- `StorageService.getSettings` (`services/storage.ts` lines 82-85):
`result.settings || this.getDefaultSettings()`. -/
def getSettings (sync : SyncStorage) : ExtensionSettings :=
  match sync.settings with
  | some s => s
  | none => getDefaultSettings

/-- `StorageService.getProtectedSites` (`services/storage.ts`
lines 93-96). -/
def getProtectedSites (sync : SyncStorage) : List String :=
  (getSettings sync).protectedSites

/-- `StorageService.isAIFeaturesEnabled` (`services/storage.ts`
lines 113-116). -/
def isAIFeaturesEnabled (sync : SyncStorage) : Bool :=
  (getSettings sync).aiFeaturesEnabled

/-- `StorageService.isAutoSummarizeEnabled` (`services/storage.ts`
lines 122-125). -/
def isAutoSummarizeEnabled (sync : SyncStorage) : Bool :=
  (getSettings sync).autoSummarize

/-! ## Writers of the protected-site list

`StorageService.addProtectedSite` / `removeProtectedSite` act on the list
inside the `settings` record; the popup's toggle button and the popup's
recommendation click handler act on the top-level `protectedSites` key.
All four are list transformers. -/

/-- `StorageService.addProtectedSite` (`services/storage.ts`
lines 98-104): push the site only when `!sites.includes(site)`; otherwise
no write happens and the stored list is unchanged. -/
def addProtectedSite (sites : List String) (site : String) : List String :=
  if sites.contains site then sites else sites ++ [site]

/-- `StorageService.removeProtectedSite` (`services/storage.ts`
lines 106-110): `sites.filter(s => s !== site)`. -/
def removeProtectedSite (sites : List String) (site : String) : List String :=
  sites.filter (fun s => s != site)

/-- The popup toggle-button click handler (popup script lines 282-297):
filter the hostname out when present, push it otherwise. -/
def popupToggleProtection (sites : List String) (hostname : String) : List String :=
  if sites.contains hostname then sites.filter (fun s => s != hostname)
  else sites ++ [hostname]

/-- The popup recommendations click handler for the `Protect Site` action
(popup script lines 324-341): it pushes the hostname unconditionally,
with no membership check. -/
def popupRecommendProtect (sites : List String) (hostname : String) : List String :=
  sites ++ [hostname]

/-! ## Background script (`background.ts`): protection-status message -/

/-- The `GET_PROTECTION_STATUS` branch of the background `onMessage`
listener (`background.ts` lines 245-251): the response's `isProtected` is
`(result.protectedSites || []).includes(hostname)`. -/
def getProtectionStatusResponse (sync : SyncStorage) (hostname : String) : ProtectionResponse :=
  { isProtected := (sync.protectedSites.getD []).contains hostname }

/-! ## Summarizer service (`services/summarizer.ts`) -/

/-- The `TabSummary` record of `services/summarizer.ts`. -/
structure TabSummary where
  tabId : Nat
  url : String
  title : String
  summary : String
  summaryType : String
  summaryLength : String
  timestamp : Nat
deriving DecidableEq

/-- The mutable state of `SummarizerService`: the `isInitialized` flag
and whether a summarizer instance is held. -/
structure SummarizerState where
  isInitializedFlag : Bool
  summarizer : Option Unit
deriving DecidableEq

/-- The environment a `performInitialization` run observes: whether
`'Summarizer' in self`, the string returned by
`Summarizer.availability()`, and the outcome of `Summarizer.create`. -/
structure SummarizerEnv where
  apiSupported : Bool
  availability : String
  createResult : Except String Unit

/-- `SummarizerService.performInitialization` (`services/summarizer.ts`
lines 59-96).  Every failure is caught, logged, and rethrown
(`console.error(...); throw error`), so the caller receives the error. -/
def performInit (env : SummarizerEnv) : Except String SummarizerState :=
  if !env.apiSupported then
    Except.error "Summarizer API is not supported in this browser"
  else if env.availability == "unavailable" then
    Except.error "Summarizer API is not available"
  else
    match env.createResult with
    | Except.error e => Except.error e
    | Except.ok _ => Except.ok { isInitializedFlag := true, summarizer := some () }

/-- `SummarizerService.summarize` (`services/summarizer.ts`
lines 101-115).  Throws `Summarizer not initialized` when the service is
not ready; otherwise it forwards the underlying API outcome, rethrowing
an API error after logging it. -/
def summarize (st : SummarizerState) (apiResult : Except String String) :
    Except String String :=
  if !st.isInitializedFlag || st.summarizer.isNone then
    Except.error "Summarizer not initialized"
  else
    match apiResult with
    | Except.ok s => Except.ok s
    | Except.error e => Except.error e

/-- The per-tab summarization status record kept by `background.ts`. -/
structure SummStatus where
  isProcessing : Bool
  lastAttempt : Nat
  errorCount : Nat
deriving DecidableEq

/-- `generateTabSummary` of `background.ts` (lines 151-188), reduced to
its effect on the tab's status record given the outcome of the
summarization pipeline: the whole body is wrapped in `try`/`catch`, so no
error escapes; on failure the status keeps `isProcessing := false` and an
incremented error count. -/
def bgGenerateTabSummary (prev : SummStatus) (outcome : Except String TabSummary)
    (now : Nat) : SummStatus :=
  match outcome with
  | Except.ok _ => { isProcessing := false, lastAttempt := now, errorCount := 0 }
  | Except.error _ => { prev with isProcessing := false, errorCount := prev.errorCount + 1 }

/-! ## Background script: summarization gating -/

/-- A parsed URL as seen by `shouldSummarizeTab`: the raw `href` and the
`hostname` that `new URL(url).hostname` yields. -/
structure TabUrl where
  href : String
  hostname : String
deriving DecidableEq

/-- `url.toLowerCase()` contains one of `blog`, `article`, `news`,
`docs`. -/
def urlHasContentKeyword (u : TabUrl) : Bool :=
  jsIncludes u.href.toLower "blog" || jsIncludes u.href.toLower "article" ||
    jsIncludes u.href.toLower "news" || jsIncludes u.href.toLower "docs"

/-- `shouldSummarizeTab` of `background.ts` (lines 113-146), with its
environment made explicit: `aiEnabled` from settings, `supported` from
the summarizer service, the tab's status record, the extracted content
length, the protected-site list from settings, the auto-summarize flag,
and the tab URL. -/
def shouldSummarizeTab (aiEnabled supported : Bool) (status : Option SummStatus)
    (contentLen : Nat) (protectedSites : List String) (autoSummarize : Bool)
    (url : TabUrl) : Bool :=
  if !aiEnabled then false
  else if !supported then false
  else if (match status with | some s => s.isProcessing | none => false) then false
  else if contentLen < 200 then false
  else if protectedSites.contains url.hostname then true
  else if !autoSummarize then false
  else if urlHasContentKeyword url then true
  else false

/-- Spec-side reading of the gating: all four gates pass, and then either
the hostname is protected, or auto-summarize is on and the URL carries a
content keyword. -/
def claimShouldSummarize (aiEnabled supported : Bool) (status : Option SummStatus)
    (contentLen : Nat) (protectedSites : List String) (autoSummarize : Bool)
    (url : TabUrl) : Bool :=
  (aiEnabled && supported &&
      !(match status with | some s => s.isProcessing | none => false) &&
      decide (200 ≤ contentLen)) &&
    (protectedSites.contains url.hostname || (autoSummarize && urlHasContentKeyword url))

/-! ## Storage service: per-tab records in `chrome.storage.local`

`chrome.storage.local` is a string-keyed map; keys are modelled as char
lists so that the `tab_` key scheme can be reasoned about structurally.
Setting a key overwrites any previous value under that key. -/

/-- The `TabData` record of `services/storage.ts`. -/
structure TabData where
  tabId : Nat
  url : String
  title : String
  hasUnsavedChanges : Bool
  summary : Option TabSummary
  lastUpdated : Nat
  protectionLevel : String
deriving DecidableEq

/-- The contents of `chrome.storage.local`: key/value entries. -/
abbrev LocalStore := List (List Char × TabData)

/-- `chrome.storage.local.set({[key]: v})`: key-value map update. -/
def storageSet (st : LocalStore) (k : List Char) (v : TabData) : LocalStore :=
  st.filter (fun e => e.1 != k) ++ [(k, v)]

/-- `chrome.storage.local.get([key])` followed by `result[key] || null`. -/
def storageGet (st : LocalStore) (k : List Char) : Option TabData :=
  (st.find? (fun e => e.1 == k)).map (fun e => e.2)

/-- `chrome.storage.local.remove([key])`. -/
def storageRemove (st : LocalStore) (k : List Char) : LocalStore :=
  st.filter (fun e => e.1 != k)

/-- The `` `tab_${tabId}` `` key (JS renders the tab id in decimal, which
is what `Nat.repr` produces). -/
def tabKey (id : Nat) : List Char :=
  "tab_".toList ++ (Nat.repr id).toList

/-- `StorageService.saveTabData` (`services/storage.ts` lines 43-46). -/
def saveTabData (st : LocalStore) (t : TabData) : LocalStore :=
  storageSet st (tabKey t.tabId) t

/-- `StorageService.getTabData` (`services/storage.ts` lines 48-52). -/
def getTabData (st : LocalStore) (id : Nat) : Option TabData :=
  storageGet st (tabKey id)

/-- `StorageService.getAllTabData` (`services/storage.ts` lines 54-65):
all values whose key starts with `tab_`. -/
def getAllTabData (st : LocalStore) : List TabData :=
  (st.filter (fun e => "tab_".toList.isPrefixOf e.1)).map (fun e => e.2)

/-- `StorageService.removeTabData` (`services/storage.ts` lines 67-70). -/
def removeTabData (st : LocalStore) (id : Nat) : LocalStore :=
  storageRemove st (tabKey id)

/-- `StorageService.updateTabSummary` (`services/storage.ts`
lines 72-79): update the stored record when it exists, do nothing when it
does not. -/
def updateTabSummary (st : LocalStore) (id : Nat) (s : TabSummary) (now : Nat) :
    LocalStore :=
  match getTabData st id with
  | none => st
  | some td => saveTabData st { td with summary := some s, lastUpdated := now }

/-- The cleanup predicate of `cleanupOldSummaries`:
`tab.lastUpdated < cutoffTime && !tab.hasUnsavedChanges`. -/
def shouldClean (cutoffTime : Int) (t : TabData) : Bool :=
  decide ((t.lastUpdated : Int) < cutoffTime) && !t.hasUnsavedChanges

/-- The cutoff computed by `cleanupOldSummaries`:
`Date.now() - retentionDays * 24 * 60 * 60 * 1000`. -/
def cleanupCutoff (settings : ExtensionSettings) (now : Nat) : Int :=
  (now : Int) - (settings.summaryRetentionDays : Int) * 24 * 60 * 60 * 1000

/-- `StorageService.cleanupOldSummaries` (`services/storage.ts`
lines 128-141). -/
def cleanupOldSummaries (st : LocalStore) (settings : ExtensionSettings) (now : Nat) :
    LocalStore :=
  let tabsToClean := (getAllTabData st).filter (shouldClean (cleanupCutoff settings now))
  tabsToClean.foldl (fun s t => removeTabData s t.tabId) st

/-- Well-formedness of the local store as maintained by the code: every
entry sits under the `tab_` key of its own `tabId`, and keys are
pairwise distinct (a key-value map holds one value per key). -/
def StoreWF (st : LocalStore) : Prop :=
  (∀ e ∈ st, e.1 = tabKey e.2.tabId) ∧ (st.map (fun e => e.1)).Nodup

instance : DecidablePred StoreWF := fun st => by
  unfold StoreWF
  infer_instance

/-! ### Injectivity of the `tab_` key scheme -/

/-- The decimal digit characters of `n`, most significant first
(specification of what `Nat.toDigitsCore` builds). -/
def digitsList (n : Nat) : List Char :=
  if n < 10 then [Nat.digitChar n]
  else digitsList (n / 10) ++ [Nat.digitChar (n % 10)]
decreasing_by exact Nat.div_lt_self (by omega) (by omega)

/-- Decode a digit string back into a natural number. -/
def decodeDigits (l : List Char) : Nat :=
  l.foldl (fun acc c => acc * 10 + (c.toNat - 48)) 0

/-! ### Digit-encoding lemmas -/

theorem digitChar_decode (d : Nat) (h : d < 10) : (Nat.digitChar d).toNat - 48 = d := by
  interval_cases d <;> decide

theorem digitsList_foldl (n : Nat) :
    ∀ acc : Nat,
      (digitsList n).foldl (fun acc c => acc * 10 + (c.toNat - 48)) acc =
        acc * 10 ^ (digitsList n).length + n := by
  induction n using Nat.strong_induction_on with
  | _ n ih =>
    intro acc
    rw [digitsList]
    by_cases h : n < 10
    · simp only [h, if_true, List.foldl_cons, List.foldl_nil, List.length_cons,
        List.length_nil, pow_one, digitChar_decode n h]
      ring
    · have hlt : n / 10 < n := Nat.div_lt_self (by omega) (by omega)
      have hmod : n % 10 < 10 := Nat.mod_lt _ (by omega)
      simp only [h, if_false, List.foldl_append, List.foldl_cons, List.foldl_nil,
        List.length_append, List.length_cons, List.length_nil,
        ih (n / 10) hlt acc, digitChar_decode (n % 10) hmod]
      rw [pow_succ, ← mul_assoc]
      generalize acc * 10 ^ (digitsList (n / 10)).length = A
      omega

theorem digitsList_injective : Function.Injective digitsList := by
  intro m n h
  have hm := digitsList_foldl m 0
  have hn := digitsList_foldl n 0
  rw [h] at hm
  simp only [zero_mul, zero_add] at hm hn
  omega

theorem toDigitsCore_eq_digitsList :
    ∀ (f n : Nat), n < 10 ^ (f + 1) → ∀ l : List Char,
      Nat.toDigitsCore 10 (f + 1) n l = digitsList n ++ l := by
  intro f
  induction f with
  | zero =>
    intro n hn l
    have h10 : n < 10 := by simpa using hn
    have hdiv : n / 10 = 0 := Nat.div_eq_of_lt h10
    have hmod : n % 10 = n := Nat.mod_eq_of_lt h10
    simp only [Nat.toDigitsCore, hdiv, hmod, if_true]
    rw [digitsList]
    simp [h10]
  | succ f ih =>
    intro n hn l
    by_cases h10 : n < 10
    · have hdiv : n / 10 = 0 := Nat.div_eq_of_lt h10
      have hmod : n % 10 = n := Nat.mod_eq_of_lt h10
      simp only [Nat.toDigitsCore, hdiv, hmod, if_true]
      rw [digitsList]
      simp [h10]
    · have hdiv : n / 10 ≠ 0 := by omega
      have hstep : n / 10 < 10 ^ (f + 1) := by
        have : n < 10 ^ (f + 2) := hn
        have h1 : n / 10 < 10 ^ (f + 2) / 10 + 1 := by
          omega
        have h2 : 10 ^ (f + 2) / 10 = 10 ^ (f + 1) := by
          rw [pow_succ]
          exact Nat.mul_div_cancel _ (by omega)
        omega
      show (if n / 10 = 0 then Nat.digitChar (n % 10) :: l
            else Nat.toDigitsCore 10 (f + 1) (n / 10) (Nat.digitChar (n % 10) :: l)) =
          digitsList n ++ l
      rw [if_neg hdiv, ih (n / 10) hstep]
      conv_rhs => rw [digitsList]
      simp [h10]

theorem natRepr_toList_eq_digitsList (n : Nat) :
    (Nat.repr n).toList = digitsList n := by
  have hn : n < 10 ^ (n + 1) := by
    calc n < 10 ^ n := Nat.lt_pow_self (by omega) n
    _ ≤ 10 ^ (n + 1) := Nat.pow_le_pow_right (by omega) (Nat.le_succ n)
  have h := toDigitsCore_eq_digitsList n n hn []
  show (Nat.toDigits 10 n).asString.data = digitsList n
  rw [Nat.toDigits, h]
  simp [List.asString]

theorem tabKey_injective : Function.Injective tabKey := by
  intro m n h
  unfold tabKey at h
  have h2 := List.append_cancel_left h
  rw [natRepr_toList_eq_digitsList, natRepr_toList_eq_digitsList] at h2
  exact digitsList_injective h2

theorem tabKey_startsWith (id : Nat) : "tab_".toList.isPrefixOf (tabKey id) = true := by
  rw [List.isPrefixOf_iff_prefix]
  exact List.prefix_append _ _

/-! ### Store lemmas -/

theorem find?_filter_of_imp {α : Type} (p q : α → Bool) (l : List α)
    (h : ∀ x, p x = true → q x = true) : (l.filter q).find? p = l.find? p := by
  induction l with
  | nil => rfl
  | cons a l ih =>
    by_cases hq : q a = true
    · rw [List.filter_cons_of_pos hq]
      by_cases hp : p a = true
      · rw [List.find?_cons_of_pos _ hp, List.find?_cons_of_pos _ hp]
      · rw [List.find?_cons_of_neg _ (by simpa using hp),
          List.find?_cons_of_neg _ (by simpa using hp), ih]
    · have hp : ¬ p a = true := fun hpa => hq (h a hpa)
      rw [List.filter_cons_of_neg (by simpa using hq), ih,
        List.find?_cons_of_neg _ (by simpa using hp)]

theorem foldl_removeTabData_eq_filter (ts : List TabData) :
    ∀ st : LocalStore,
      ts.foldl (fun s t => removeTabData s t.tabId) st =
        st.filter (fun e => !(ts.any (fun t => e.1 == tabKey t.tabId))) := by
  induction ts with
  | nil => intro st; simp
  | cons t ts ih =>
    intro st
    rw [List.foldl_cons]
    show ts.foldl (fun s t => removeTabData s t.tabId) (removeTabData st t.tabId) = _
    rw [ih]
    unfold removeTabData storageRemove
    rw [List.filter_filter]
    apply List.filter_congr
    intro e _
    simp only [List.any_cons, Bool.not_or, bne]
    rw [Bool.and_comm]

theorem getAllTabData_of_wf (st : LocalStore) (h : StoreWF st) :
    getAllTabData st = st.map (fun e => e.2) := by
  have heq : st.filter (fun e => "tab_".toList.isPrefixOf e.1) = st := by
    apply List.filter_eq_self.mpr
    intro e he
    rw [h.1 e he]
    exact tabKey_startsWith _
  rw [getAllTabData]
  rw [heq]

theorem saveTabData_wf (st : LocalStore) (t : TabData) (h : StoreWF st) :
    StoreWF (saveTabData st t) := by
  constructor
  · intro e he
    unfold saveTabData storageSet at he
    rcases List.mem_append.mp he with h1 | h1
    · exact h.1 e (List.mem_of_mem_filter h1)
    · simp only [List.mem_singleton] at h1
      rw [h1]
  · unfold saveTabData storageSet
    rw [List.map_append]
    rw [List.nodup_append]
    refine ⟨?_, by simp, ?_⟩
    · exact h.2.sublist ((List.filter_sublist st).map (fun e => e.1))
    · intro a ha hb
      simp only [List.map_cons, List.map_nil, List.mem_singleton] at hb
      rcases List.mem_map.mp ha with ⟨e, he, hea⟩
      have := List.mem_filter.mp he
      rw [hb] at hea
      simp only [bne_iff_ne, ne_eq, decide_eq_true_eq] at this
      exact this.2 hea

theorem wf_tabIds_nodup (st : LocalStore) (h : StoreWF st) :
    ((getAllTabData st).map (fun v => v.tabId)).Nodup := by
  rw [getAllTabData_of_wf st h]
  have hkeys : st.map (fun e => e.1) = st.map (fun e => tabKey e.2.tabId) :=
    List.map_congr_left (fun e he => h.1 e he)
  have h2 : (st.map (fun e => tabKey e.2.tabId)).Nodup := hkeys ▸ h.2
  have h3 : (((st.map (fun e => e.2)).map (fun v => v.tabId)).map tabKey).Nodup := by
    simpa [List.map_map, Function.comp] using h2
  exact List.Nodup.of_map tabKey h3

/-! ## Claim theorems -/

/-- C1: the `beforeunload` handler emits a warning (preventDefault and a
returned message) if and only if the site is protected and there are
unsaved changes (the page-level flag or the tracked form's flag); in
particular, on an unprotected site no warning is produced even with
unsaved form input. -/
theorem C1_beforeunload_warning_iff :
    (∀ st : ContentState,
      (beforeunloadHandler st).isSome =
        (st.isSiteProtected && (st.hasUnsavedChanges || formHasUnsaved st))) ∧
    (∀ st : ContentState, st.isSiteProtected = false → beforeunloadHandler st = none) := by
  constructor
  · intro st
    unfold beforeunloadHandler
    cases hb : st.isSiteProtected && (st.hasUnsavedChanges || formHasUnsaved st) <;>
      simp [hb]
  · intro st h
    unfold beforeunloadHandler
    simp [h]

/-- Witness for C1 at a concrete state: unprotected site, unsaved
changes, no warning. -/
theorem C1_beforeunload_warning_iff_witness :
    beforeunloadHandler ⟨true, false, none, none⟩ = none :=
  C1_beforeunload_warning_iff.2 ⟨true, false, none, none⟩ rfl

/-- C5: the `GET_PROTECTION_STATUS` response has `isProtected = true` iff
the hostname is a member of the stored `protectedSites` list, an absent
key counting as the empty list (every hostname unprotected). -/
theorem C5_protection_status_membership :
    (∀ (sync : SyncStorage) (hostname : String),
      (getProtectionStatusResponse sync hostname).isProtected = true ↔
        hostname ∈ sync.protectedSites.getD []) ∧
    (∀ (sync : SyncStorage) (hostname : String), sync.protectedSites = none →
      (getProtectionStatusResponse sync hostname).isProtected = false) := by
  constructor
  · intro sync hostname
    simp [getProtectionStatusResponse]
  · intro sync hostname h
    simp [getProtectionStatusResponse, h]

/-- Witness for C5: with no stored list, a concrete hostname is
unprotected. -/
theorem C5_protection_status_membership_witness :
    (getProtectionStatusResponse { settings := none, protectedSites := none }
      "example.com").isProtected = false :=
  C5_protection_status_membership.2
    { settings := none, protectedSites := none } "example.com" rfl

/-- C7: when no settings record has been saved, `getSettings` returns the
default record, and `isAIFeaturesEnabled`, `isAutoSummarizeEnabled` and
`getProtectedSites` return the corresponding defaults. -/
theorem C7_default_settings :
    ∀ sync : SyncStorage, sync.settings = none →
      getSettings sync =
        { protectedSites := []
          aiFeaturesEnabled := true
          autoSummarize := true
          summaryTypes :=
            { forms := "key-points", articles := "teaser",
              documents := "tldr", general := "key-points" }
          maxSummariesPerTab := 5
          summaryRetentionDays := 7 } ∧
      isAIFeaturesEnabled sync = true ∧
      isAutoSummarizeEnabled sync = true ∧
      getProtectedSites sync = [] := by
  intro sync h
  refine ⟨?_, ?_, ?_, ?_⟩ <;>
    simp [getSettings, isAIFeaturesEnabled, isAutoSummarizeEnabled, getProtectedSites, h,
      getDefaultSettings]

/-- Witness for C7 at the empty sync storage. -/
theorem C7_default_settings_witness :
    getSettings { settings := none, protectedSites := none } = getDefaultSettings ∧
    isAIFeaturesEnabled { settings := none, protectedSites := none } = true := by
  have h := C7_default_settings { settings := none, protectedSites := none } rfl
  exact ⟨by rw [h.1]; rfl, h.2.1⟩

/-- C6 counterexample: `summarize` and `performInitialization` do raise
errors to their callers — calling `summarize` on an uninitialized service
returns (throws) `Summarizer not initialized`, and initializing in a
browser without the API returns (throws) the unsupported error. -/
theorem C6_counterexample :
    summarize ⟨false, none⟩ (Except.ok "some text") =
      Except.error "Summarizer not initialized" ∧
    performInit ⟨false, "readily", Except.ok ()⟩ =
      Except.error "Summarizer API is not supported in this browser" :=
  ⟨rfl, rfl⟩

/-- C6 (amended): summarization errors are caught and logged but then
rethrown, so `summarize` and `performInitialization` do propagate errors
to their callers; the silent failure lives one level up, in the
background script's `generateTabSummary`, whose `try`/`catch` absorbs
every outcome and always completes with `isProcessing = false`. -/
theorem C6_errors_rethrown :
    (∀ (st : SummarizerState) (r : Except String String),
      st.isInitializedFlag = false →
        summarize st r = Except.error "Summarizer not initialized") ∧
    (∀ (st : SummarizerState) (e : String),
      summarize st (Except.error e) = Except.error e ∨
        summarize st (Except.error e) = Except.error "Summarizer not initialized") ∧
    (∀ (env : SummarizerEnv) (e : String),
      env.createResult = Except.error e → env.apiSupported = true →
      env.availability ≠ "unavailable" → performInit env = Except.error e) ∧
    (∀ (prev : SummStatus) (outcome : Except String TabSummary) (now : Nat),
      (bgGenerateTabSummary prev outcome now).isProcessing = false) := by
  refine ⟨?_, ?_, ?_, ?_⟩
  · intro st r h
    unfold summarize
    simp [h]
  · intro st e
    unfold summarize
    by_cases h : (!st.isInitializedFlag || st.summarizer.isNone) = true
    · right; simp [h]
    · left; simp [h]
  · intro env e hc hsup hav
    unfold performInit
    rw [if_neg (by simp [hsup]), if_neg (by simpa using hav), hc]
  · intro prev outcome now
    cases outcome <;> rfl

/-- Witness for C6 at concrete inputs: an uninitialized `summarize` call
throws, a failing `Summarizer.create` error is rethrown, and the
background caller always completes. -/
theorem C6_errors_rethrown_witness :
    summarize ⟨false, some ()⟩ (Except.ok "txt") =
      Except.error "Summarizer not initialized" ∧
    performInit ⟨true, "downloadable", Except.error "create failed"⟩ =
      Except.error "create failed" ∧
    (bgGenerateTabSummary ⟨true, 0, 0⟩ (Except.error "boom") 5).isProcessing = false := by
  have h := C6_errors_rethrown
  exact ⟨h.1 ⟨false, some ()⟩ (Except.ok "txt") rfl,
    h.2.2.1 ⟨true, "downloadable", Except.error "create failed"⟩ "create failed" rfl rfl
      (by decide),
    h.2.2.2 ⟨true, 0, 0⟩ (Except.error "boom") 5⟩

/-- C8: `shouldSummarizeTab` equals the claim's gating — false when AI is
disabled, the API unsupported, a summarization is in progress, or the
content is under 200 characters; past the gates, true for protected
hostnames, otherwise true exactly when auto-summarize is on and the
lowercased URL contains `blog`, `article`, `news` or `docs`. -/
theorem C8_should_summarize_refines_claim :
    ∀ (aiEnabled supported : Bool) (status : Option SummStatus) (contentLen : Nat)
      (protectedSites : List String) (autoSummarize : Bool) (url : TabUrl),
      shouldSummarizeTab aiEnabled supported status contentLen protectedSites
          autoSummarize url =
        claimShouldSummarize aiEnabled supported status contentLen protectedSites
          autoSummarize url := by
  intro a s status cl ps au u
  unfold shouldSummarizeTab claimShouldSummarize
  cases a <;> cases s <;>
    cases hp : (match status with | some s => s.isProcessing | none => false) <;>
      by_cases hcl : cl < 200 <;>
        cases hc : ps.contains u.hostname <;>
          cases au <;>
            cases hk : urlHasContentKeyword u <;>
              simp [hp, hcl, hc, hk, Nat.not_lt.mp, decide_eq_true_eq]

/-- C4 counterexample: the popup's recommendation click handler pushes the
hostname without a membership check, so from a stored list already
containing the hostname it produces a duplicate. -/
theorem C4_counterexample :
    ¬ (popupRecommendProtect ["docs.google.com"] "docs.google.com").Nodup := by
  decide

/-- C4 (amended): on a duplicate-free list, `addProtectedSite` (a no-op
when the site is present), `removeProtectedSite` (which removes every
occurrence of the site and nothing else) and the popup toggle preserve
freedom from duplicates; the recommendations click handler preserves it
only when the hostname is not already present — it appends
unconditionally. -/
theorem C4_nodup_preserved (sites : List String) (site : String) (h : sites.Nodup) :
    (addProtectedSite sites site).Nodup ∧
    (sites.contains site = true → addProtectedSite sites site = sites) ∧
    (removeProtectedSite sites site).Nodup ∧
    site ∉ removeProtectedSite sites site ∧
    (∀ x, x ≠ site → (removeProtectedSite sites site).count x = sites.count x) ∧
    (popupToggleProtection sites site).Nodup ∧
    (site ∉ sites → (popupRecommendProtect sites site).Nodup) := by
  have happend : site ∉ sites → (sites ++ [site]).Nodup := by
    intro hnot
    rw [List.nodup_append]
    refine ⟨h, by simp, ?_⟩
    intro a ha hb
    simp only [List.mem_singleton] at hb
    rw [hb] at ha
    exact hnot ha
  refine ⟨?_, ?_, h.filter _, ?_, ?_, ?_, ?_⟩
  · unfold addProtectedSite
    by_cases hc : sites.contains site = true
    · rw [if_pos hc]; exact h
    · rw [if_neg hc]; exact happend (by simpa using hc)
  · intro hc
    unfold addProtectedSite
    rw [if_pos hc]
  · intro hmem
    have := (List.mem_filter.mp hmem).2
    simp at this
  · intro x hx
    unfold removeProtectedSite
    rw [List.count_filter]
    simp [hx]
  · unfold popupToggleProtection
    by_cases hc : sites.contains site = true
    · rw [if_pos hc]; exact h.filter _
    · rw [if_neg hc]; exact happend (by simpa using hc)
  · intro hnot
    unfold popupRecommendProtect
    exact happend hnot

/-- Witness for C4 (amended) at a concrete list. -/
theorem C4_nodup_preserved_witness :
    (addProtectedSite ["a.com"] "b.com").Nodup ∧
    (removeProtectedSite ["a.com"] "b.com").count "a.com" = List.count "a.com" ["a.com"] ∧
    (popupRecommendProtect ["a.com"] "b.com").Nodup := by
  have h := C4_nodup_preserved ["a.com"] "b.com" (by decide)
  exact ⟨h.1, h.2.2.2.2.1 "a.com" (by decide), h.2.2.2.2.2.2 (by decide)⟩

/-- C2 counterexample: for a form whose only field is not required, a
field edit that changes the value leaves `completionPercentage` as `NaN`
(here `none`) — `Math.round((0/0)*100)` — so the percentage is not a
well-defined number for forms with zero required fields. -/
theorem C2_counterexample :
    (handleFieldChange ⟨"form_0", [⟨"comment", "text", "", false, false⟩], some 0, 0, false⟩
        0 "hello" 42).hasUnsavedChanges = true ∧
    (handleFieldChange ⟨"form_0", [⟨"comment", "text", "", false, false⟩], some 0, 0, false⟩
        0 "hello" 42).completionPercentage = none := by
  decide

/-- C2 (amended): after `handleFieldChange` processes an edit that changed
the field's value, `completionPercentage` is
`Math.round(100 * completed / required)` over the required fields of the
updated field list whenever the form has at least one required field;
with zero required fields it is `NaN` (`none`), not a number. -/
theorem C2_completion_percentage (form : FormDataInfo) (i : Nat) (v : String) (now : Nat)
    (fd : FormField) (req comp : List FormField)
    (hget : form.fields.get? i = some fd) (hne : fd.value ≠ v)
    (hreq : req = (form.fields.set i { fd with value := v, isModified := true }).filter
        (fun f => f.required))
    (hcomp : comp = req.filter (fun f => jsTrim f.value != "")) :
    (0 < req.length →
      (handleFieldChange form i v now).completionPercentage =
        some (round ((100 : ℚ) * (comp.length : ℚ) / (req.length : ℚ)))) ∧
    (req.length = 0 →
      (handleFieldChange form i v now).completionPercentage = none) := by
  subst hcomp
  subst hreq
  unfold handleFieldChange
  rw [hget]
  dsimp only
  rw [if_neg (by simpa using hne)]
  constructor
  · intro hpos
    dsimp only
    rw [if_neg (by omega)]
    congr 1
    congr 1
    ring
  · intro h0
    dsimp only
    rw [if_pos h0]

/-- Witness for C2 (amended): a one-required-field form reaches 100%. -/
theorem C2_completion_percentage_witness :
    (handleFieldChange ⟨"f", [⟨"email", "email", "", true, false⟩], some 0, 0, false⟩
        0 "x" 1).completionPercentage = some 100 := by
  have h := (C2_completion_percentage
    ⟨"f", [⟨"email", "email", "", true, false⟩], some 0, 0, false⟩
    0 "x" 1 ⟨"email", "email", "", true, false⟩
    ([⟨"email", "email", "", true, false⟩].set 0 ⟨"email", "email", "x", true, true⟩
      |>.filter (fun f => f.required))
    (([⟨"email", "email", "", true, false⟩].set 0 ⟨"email", "email", "x", true, true⟩
      |>.filter (fun f => f.required)).filter (fun f => jsTrim f.value != ""))
    rfl (by decide) rfl rfl).1 (by decide)
  rw [h]
  have hq : (100 : ℚ) *
      (([⟨"email", "email", "", true, false⟩].set 0
          (⟨"email", "email", "x", true, true⟩ : FormField)
        |>.filter (fun f => f.required)).filter (fun f => jsTrim f.value != "")).length /
      ((([⟨"email", "email", "", true, false⟩].set 0
          (⟨"email", "email", "x", true, true⟩ : FormField)
        |>.filter (fun f => f.required)).length : ℕ) : ℚ) = 100 := by
    norm_num [List.set, List.filter, jsTrim, decide_eq_true_eq]
    decide
  rw [hq]
  norm_num [round_eq]

/-- C3: `performContentAnalysis` classifies `form` before `article`
(any of `article`, `[role="main"]`, `main`, `.post`, `.entry`) before
`document` (`.document`, `.editor`, `[contenteditable]`) before
`general`; for form pages, complexity is high for more than 2 forms,
medium for more than 1, else low, and risk is high for more than 5
required fields, medium for more than 2, else low. -/
theorem C3_content_classification :
    ∀ pg : Page,
      (performContentAnalysis pg).contentType = claimContentType pg ∧
      (pg.elems.any isFormElem = true →
        (performContentAnalysis pg).complexity =
          (if 2 < (pg.elems.filter isFormElem).length then Level.high
           else if 1 < (pg.elems.filter isFormElem).length then Level.medium
           else Level.low) ∧
        (performContentAnalysis pg).riskLevel =
          (if 5 < ((pg.elems.filter isInputElem).filter isRequiredInput).length then
             Level.high
           else if 2 < ((pg.elems.filter isInputElem).filter isRequiredInput).length then
             Level.medium
           else Level.low)) := by
  have hformiff : ∀ pg : Page,
      0 < (pg.elems.filter isFormElem).length ↔ pg.elems.any isFormElem = true := by
    intro pg
    simp [List.length_pos_iff_exists_mem, List.mem_filter, List.any_eq_true]
  have hartiff : ∀ pg : Page,
      (0 < (pg.elems.filter matchesArticleOrMain).length ∨
          pg.elems.any matchesArticlePostEntry = true) ↔
        pg.elems.any isArticleLikeElem = true := by
    intro pg
    simp only [List.length_pos_iff_exists_mem, List.mem_filter, List.any_eq_true,
      matchesArticleOrMain, matchesArticlePostEntry, isArticleLikeElem, Bool.or_eq_true]
    aesop
  intro pg
  by_cases hf : pg.elems.any isFormElem = true
  · have hflen : 0 < (pg.elems.filter isFormElem).length := (hformiff pg).mpr hf
    refine ⟨?_, fun _ => ⟨?_, ?_⟩⟩
    · simp only [performContentAnalysis, claimContentType]
      rw [if_pos hflen, if_pos hf]
    · simp only [performContentAnalysis]
      rw [if_pos hflen]
    · simp only [performContentAnalysis]
      rw [if_pos hflen]
  · have hflen : ¬ 0 < (pg.elems.filter isFormElem).length :=
      fun hc => hf ((hformiff pg).mp hc)
    refine ⟨?_, fun hcon => absurd hcon hf⟩
    by_cases ha : pg.elems.any isArticleLikeElem = true
    · have hcode : 0 < (pg.elems.filter matchesArticleOrMain).length ∨
          pg.elems.any matchesArticlePostEntry = true := (hartiff pg).mpr ha
      have hcodeB : (decide ((List.filter matchesArticleOrMain pg.elems).length > 0) ||
          pg.elems.any matchesArticlePostEntry) = true := by
        simp only [Bool.or_eq_true, decide_eq_true_eq, gt_iff_lt]
        exact hcode
      simp only [performContentAnalysis, claimContentType]
      rw [if_neg hflen, if_neg hf, if_pos hcodeB, if_pos ha]
    · have hcode : ¬ (0 < (pg.elems.filter matchesArticleOrMain).length ∨
          pg.elems.any matchesArticlePostEntry = true) :=
        fun hc => ha ((hartiff pg).mp hc)
      have hcodeB : ¬ ((decide ((List.filter matchesArticleOrMain pg.elems).length > 0) ||
          pg.elems.any matchesArticlePostEntry) = true) := by
        simp only [Bool.or_eq_true, decide_eq_true_eq, gt_iff_lt]
        exact hcode
      by_cases hd : pg.elems.any matchesDocEditor = true
      · simp only [performContentAnalysis, claimContentType]
        rw [if_neg hflen, if_neg hf, if_neg hcodeB, if_neg ha, if_pos hd, if_pos hd]
      · simp only [performContentAnalysis, claimContentType]
        rw [if_neg hflen, if_neg hf, if_neg hcodeB, if_neg ha, if_neg hd, if_neg hd]

/-- Witness for C3 at a concrete page: one form and one required input. -/
theorem C3_content_classification_witness :
    (performContentAnalysis ⟨[⟨"form", none, [], false, false, none, "", none, none⟩,
        ⟨"input", none, [], false, true, none, "text", some "email", none⟩], 0⟩).contentType =
      claimContentType ⟨[⟨"form", none, [], false, false, none, "", none, none⟩,
        ⟨"input", none, [], false, true, none, "text", some "email", none⟩], 0⟩ ∧
    (performContentAnalysis ⟨[⟨"form", none, [], false, false, none, "", none, none⟩,
        ⟨"input", none, [], false, true, none, "text", some "email", none⟩], 0⟩).complexity =
      Level.low ∧
    (performContentAnalysis ⟨[⟨"form", none, [], false, false, none, "", none, none⟩,
        ⟨"input", none, [], false, true, none, "text", some "email", none⟩], 0⟩).riskLevel =
      Level.low := by
  have h := C3_content_classification ⟨[⟨"form", none, [], false, false, none, "", none, none⟩,
    ⟨"input", none, [], false, true, none, "text", some "email", none⟩], 0⟩
  refine ⟨h.1, ?_, ?_⟩
  · rw [(h.2 (by decide)).1]
    decide
  · rw [(h.2 (by decide)).2]
    decide

/-- C9: per-tab records are keyed uniquely by tab id — `saveTabData`
stores the record under its own id, leaves every other id's record
unchanged, preserves store well-formedness, and on a well-formed store a
second save overwrites rather than duplicates, so `getAllTabData` holds
at most one record per tab id (their ids are pairwise distinct). -/
theorem C9_tab_records_unique_per_id (st : LocalStore) (t : TabData) (hwf : StoreWF st) :
    getTabData (saveTabData st t) t.tabId = some t ∧
    (∀ id : Nat, id ≠ t.tabId → getTabData (saveTabData st t) id = getTabData st id) ∧
    StoreWF (saveTabData st t) ∧
    ((getAllTabData (saveTabData st t)).map (fun v => v.tabId)).Nodup := by
  refine ⟨?_, ?_, saveTabData_wf st t hwf, wf_tabIds_nodup _ (saveTabData_wf st t hwf)⟩
  · unfold getTabData storageGet saveTabData storageSet
    rw [List.find?_append]
    have h1 : (st.filter (fun e => e.1 != tabKey t.tabId)).find?
        (fun e => e.1 == tabKey t.tabId) = none := by
      rw [List.find?_eq_none]
      intro x hx
      have hpred := (List.mem_filter.mp hx).2
      simp only [bne_iff_ne, ne_eq] at hpred
      simp [hpred]
    rw [h1]
    simp
  · intro id hid
    unfold getTabData storageGet saveTabData storageSet
    rw [List.find?_append]
    have hk : ¬ (tabKey t.tabId == tabKey id) = true := by
      simp only [beq_iff_eq]
      exact fun hc => hid (tabKey_injective hc).symm
    have h2 : ([(tabKey t.tabId, t)].find? (fun e => e.1 == tabKey id)) = none := by
      simp [hk]
    rw [h2]
    rw [find?_filter_of_imp (fun e => e.1 == tabKey id) (fun e => e.1 != tabKey t.tabId) st]
    · cases st.find? (fun e => e.1 == tabKey id) <;> rfl
    · intro x hx
      simp only [beq_iff_eq] at hx
      simp only [bne_iff_ne, ne_eq, hx]
      exact fun hc => hid (tabKey_injective hc.symm).symm

/-- Witness for C9 at a concrete store and record. -/
theorem C9_tab_records_unique_per_id_witness :
    getTabData (saveTabData [] ⟨5, "https://a.com/x", "Title", false, none, 0, "none"⟩) 5 =
      some ⟨5, "https://a.com/x", "Title", false, none, 0, "none"⟩ ∧
    getTabData (saveTabData [] ⟨5, "https://a.com/x", "Title", false, none, 0, "none"⟩) 7 =
      getTabData [] 7 ∧
    StoreWF (saveTabData [] ⟨5, "https://a.com/x", "Title", false, none, 0, "none"⟩) := by
  have h := C9_tab_records_unique_per_id []
    ⟨5, "https://a.com/x", "Title", false, none, 0, "none"⟩ (by constructor <;> simp)
  exact ⟨h.1, h.2.1 7 (by decide), h.2.2.1⟩

/-- C10: on a well-formed store, `cleanupOldSummaries` removes exactly the
entries older than `now` minus the retention period (in milliseconds)
whose `hasUnsavedChanges` is false — records with unsaved changes are
never removed, survivors are unchanged — and `updateTabSummary` on a
missing tab id leaves the store entirely unchanged. -/
theorem C10_cleanup_removes_exactly (st : LocalStore) (settings : ExtensionSettings)
    (now : Nat) (hwf : StoreWF st) :
    cleanupOldSummaries st settings now =
      st.filter (fun e => !(shouldClean (cleanupCutoff settings now) e.2)) ∧
    (∀ e ∈ st, e.2.hasUnsavedChanges = true → e ∈ cleanupOldSummaries st settings now) ∧
    (∀ (id : Nat) (s : TabSummary), getTabData st id = none →
      updateTabSummary st id s now = st) := by
  have hmain : cleanupOldSummaries st settings now =
      st.filter (fun e => !(shouldClean (cleanupCutoff settings now) e.2)) := by
    unfold cleanupOldSummaries
    rw [foldl_removeTabData_eq_filter]
    rw [getAllTabData_of_wf st hwf]
    apply List.filter_congr
    intro e he
    have hkey := hwf.1 e he
    congr 1
    cases hsc : shouldClean (cleanupCutoff settings now) e.2
    · rw [List.any_eq_false]
      intro t ht
      rcases List.mem_filter.mp ht with ⟨ht1, ht2⟩
      rcases List.mem_map.mp ht1 with ⟨e2, he2, rfl⟩
      intro hbeq
      simp only [beq_iff_eq] at hbeq
      have hkey2 := hwf.1 e2 he2
      have hfst : e2.1 = e.1 := by rw [hkey2, ← hbeq, hkey]
      have heq := List.inj_on_of_nodup_map hwf.2 he2 he hfst
      rw [heq, hsc] at ht2
      exact Bool.false_ne_true ht2
    · rw [List.any_eq_true]
      refine ⟨e.2, List.mem_filter.mpr ⟨List.mem_map.mpr ⟨e, he, rfl⟩, hsc⟩, ?_⟩
      simp [hkey]
  refine ⟨hmain, ?_, ?_⟩
  · intro e he hus
    rw [hmain]
    refine List.mem_filter.mpr ⟨he, ?_⟩
    simp [shouldClean, hus]
  · intro id s h
    unfold updateTabSummary
    rw [h]

/-- Witness for C10 at a concrete store: an old saved record is cleaned,
and updating a missing tab id changes nothing. -/
theorem C10_cleanup_removes_exactly_witness :
    cleanupOldSummaries [(tabKey 3, ⟨3, "u", "t", false, none, 0, "none"⟩)]
        getDefaultSettings 1000000000000 = [] ∧
    updateTabSummary [(tabKey 3, ⟨3, "u", "t", false, none, 0, "none"⟩)] 9
        ⟨9, "u", "t", "s", "key-points", "short", 1⟩ 5 =
      [(tabKey 3, ⟨3, "u", "t", false, none, 0, "none"⟩)] := by
  have h := C10_cleanup_removes_exactly [(tabKey 3, ⟨3, "u", "t", false, none, 0, "none"⟩)]
    getDefaultSettings 1000000000000 (by constructor <;> simp)
  refine ⟨?_, h.2.2 9 ⟨9, "u", "t", "s", "key-points", "short", 1⟩ (by decide)⟩
  rw [h.1]
  decide
